import Mathlib

/-!
Shallow embedding of the `ava-langchain` tracing layer.

The embedding covers:
* `libs/core/langchain_core/callbacks/langfuse_handler.py`
  (`CoaiapyLangfuseCallbackHandler`): the run-id correlation maps,
  trace resolution (`_get_or_create_trace`), glyph naming (`_add_glyph`),
  start/end/error lifecycle callbacks, and teardown flush.
* `libs/narrative-tracing/narrative_tracing/orchestrator.py`
  (`NarrativeTraceOrchestrator`): root-trace creation, correlation-header
  injection/extraction and `finalize_story_trace`.

Python dictionaries are modelled as insertion-ordered association lists
(`List (String × α)`) with update-in-place semantics (`dset`), matching
CPython dict behaviour. Calls forwarded to the external Langfuse client
are recorded in an event log field (`log`), mirroring the buffered-write
contract of the SDK. `uuid.uuid4()` is modelled as a deterministic fresh
supply (`uuidGen`) driven by a counter carried in the state; the only
property of `uuid4` the code relies on is global uniqueness, which holds
for `uuidGen` by injectivity. Python truthiness of optional strings
(`if parent_run_id:`) is embedded explicitly (`none` and `some ""` are
falsy).
-/

namespace AvaLangchain

/-- Lookup in a Python-style dict: first (and only) binding of the key. -/
def dget {α : Type} (m : List (String × α)) (k : String) : Option α :=
  match m with
  | [] => none
  | (k', v) :: rest => if k' = k then some v else dget rest k

/-- Update in a Python-style dict: overwrite in place, else append. -/
def dset {α : Type} (m : List (String × α)) (k : String) (v : α) :
    List (String × α) :=
  match m with
  | [] => [(k, v)]
  | (k', v') :: rest =>
      if k' = k then (k, v) :: rest else (k', v') :: dset rest k v

/-- Deletion in a Python-style dict (`del m[k]` / guarded delete). -/
def ddel {α : Type} (m : List (String × α)) (k : String) :
    List (String × α) :=
  match m with
  | [] => []
  | (k', v') :: rest =>
      if k' = k then ddel rest k else (k', v') :: ddel rest k

@[simp] theorem dget_nil {α : Type} (k : String) :
    dget ([] : List (String × α)) k = none := rfl

@[simp] theorem dget_cons {α : Type} (k' k : String) (v : α) (m : List (String × α)) :
    dget ((k', v) :: m) k = if k' = k then some v else dget m k := rfl

@[simp] theorem dget_dset_self {α : Type} (m : List (String × α)) (k : String) (v : α) :
    dget (dset m k v) k = some v := by
  induction m with
  | nil => simp [dset]
  | cons p rest ih =>
      obtain ⟨k', v'⟩ := p
      by_cases h : k' = k <;> simp [dset, h, ih]

@[simp] theorem dget_dset_ne {α : Type} (m : List (String × α)) (k k' : String) (v : α)
    (h : k ≠ k') : dget (dset m k v) k' = dget m k' := by
  induction m with
  | nil => simp [dset, h]
  | cons p rest ih =>
      obtain ⟨k0, v0⟩ := p
      by_cases h0 : k0 = k
      · subst h0
        simp [dset, h]
      · simp [dset, h0, ih]

@[simp] theorem dget_ddel_self {α : Type} (m : List (String × α)) (k : String) :
    dget (ddel m k) k = none := by
  induction m with
  | nil => simp [ddel]
  | cons p rest ih =>
      obtain ⟨k0, v0⟩ := p
      by_cases h0 : k0 = k <;> simp [ddel, h0, ih]

@[simp] theorem dget_ddel_ne {α : Type} (m : List (String × α)) (k k' : String)
    (h : k ≠ k') : dget (ddel m k) k' = dget m k' := by
  induction m with
  | nil => simp [ddel]
  | cons p rest ih =>
      obtain ⟨k0, v0⟩ := p
      by_cases h0 : k0 = k
      · subst h0
        simp [ddel, h, ih]
      · simp [ddel, h0, ih]

/-- Membership of a binding in the dict implies lookup can find the key. -/
theorem dget_isSome_of_mem {α : Type} {m : List (String × α)} {k : String} {v : α}
    (h : (k, v) ∈ m) : (dget m k).isSome := by
  induction m with
  | nil => cases h
  | cons p rest ih =>
      obtain ⟨k0, v0⟩ := p
      rcases List.mem_cons.mp h with h1 | h1
      · cases h1
        simp
      · by_cases h0 : k0 = k <;> simp [h0, ih h1]

/-- A successful lookup exhibits a binding in the dict. -/
theorem mem_of_dget_eq_some {α : Type} {m : List (String × α)} {k : String} {v : α}
    (h : dget m k = some v) : (k, v) ∈ m := by
  induction m with
  | nil => simp [dget] at h
  | cons p rest ih =>
      obtain ⟨k0, v0⟩ := p
      by_cases h0 : k0 = k
      · subst h0
        simp [dget] at h
        simp [h]
      · simp [dget, h0] at h
        exact List.mem_cons_of_mem _ (ih h)

/-- Deterministic fresh-identifier supply standing in for `uuid.uuid4()`:
the n-th synthesized identifier. Globally unique by injectivity. -/
def uuidGen (n : Nat) : String := String.mk (List.replicate (n + 1) 'u')

theorem uuidGen_injective : Function.Injective uuidGen := by
  intro m n h
  have hlen : (uuidGen m).length = (uuidGen n).length := by rw [h]
  simpa [uuidGen, String.length] using hlen

/-! ## Embedding of `CoaiapyLangfuseCallbackHandler`
(`libs/core/langchain_core/callbacks/langfuse_handler.py`) -/

/-- One call forwarded to the external Langfuse client (a buffered write). -/
inductive ClientEvent : Type
  /-- `self.langfuse.trace(id=trace_id, ...)` inside `_get_or_create_trace`. -/
  | createTrace (traceId : String)
  /-- `trace.generation(...)` / `trace.span(...)` inside a start callback. -/
  | createObservation (traceId : String) (obsId : String) (name : String)
      (parentObservationId : Option String)
  /-- `obs.end(output=...)` inside `on_run_end` / `on_llm_end` (closed-success). -/
  | endObservation (obsId : String)
  /-- `obs.end(level="ERROR", status_message=..., ...)` inside `on_run_error`. -/
  | endObservationWithError (obsId : String) (message : String)
  deriving Repr, DecidableEq

/-- The local record of an observation handle stored in
`self.observation_objects`: its id, the trace whose handle created it,
its display name and its `parent_observation_id` argument. -/
structure Observation : Type where
  id : String
  traceId : String
  name : String
  parentObservationId : Option String
  deriving Repr, DecidableEq

/-- State of a `CoaiapyLangfuseCallbackHandler`: the constructor-time default
trace id, the two correlation maps, the created trace handles (keys of
`self.trace_objects`), the observation handles, the fresh-uuid counter and
the log of calls forwarded to the remote client. -/
structure Handler : Type where
  default_trace_id : Option String
  run_to_trace_id : List (String × String)
  run_to_observation_id : List (String × String)
  trace_objects : List String
  observation_objects : List (String × Observation)
  fresh : Nat
  log : List ClientEvent
  deriving Repr, DecidableEq

/-- A freshly constructed handler (`__init__`): empty maps, empty log. -/
def initHandler (default_trace_id : Option String) : Handler :=
  { default_trace_id := default_trace_id
    run_to_trace_id := []
    run_to_observation_id := []
    trace_objects := []
    observation_objects := []
    fresh := 0
    log := [] }

/-- `self.default_trace_id or str(uuid.uuid4())`: Python `or` on an optional
string, where `None` and `""` are falsy. Returns the chosen trace id and the
updated fresh counter. -/
def defaultOrFresh (default_trace_id : Option String) (fresh : Nat) :
    String × Nat :=
  match default_trace_id with
  | some d => if d = "" then (uuidGen fresh, fresh + 1) else (d, fresh)
  | none => (uuidGen fresh, fresh + 1)

/-- `_get_or_create_trace(run_id, parent_run_id)` (lines 90–119): returns the
resolved trace id and the updated handler state. -/
def getOrCreateTrace (h : Handler) (run_id : String)
    (parent_run_id : Option String) : String × Handler :=
  match dget h.run_to_trace_id run_id with
  | some t => (t, h)
  | none =>
    let inherited : Option String :=
      match parent_run_id with
      | some p => dget h.run_to_trace_id p
      | none => none
    match inherited with
    | some pt =>
        (pt, { h with run_to_trace_id := dset h.run_to_trace_id run_id pt })
    | none =>
        let tf := defaultOrFresh h.default_trace_id h.fresh
        let trace_id := tf.1
        let h1 := { h with
          run_to_trace_id := dset h.run_to_trace_id run_id trace_id
          fresh := tf.2 }
        if h1.trace_objects.contains trace_id then (trace_id, h1)
        else
          (trace_id, { h1 with
            trace_objects := h1.trace_objects ++ [trace_id]
            log := h1.log ++ [ClientEvent.createTrace trace_id] })

/-- `_get_parent_id(parent_run_id)` (lines 86–88). -/
def getParentId (h : Handler) (parent_run_id : Option String) : Option String :=
  match parent_run_id with
  | some p => dget h.run_to_observation_id p
  | none => none

/-- The glyph lookup table of `_add_glyph` (lines 123–131). -/
def glyphFor (run_type : String) : String :=
  if run_type = "llm" then "🤖"
  else if run_type = "chat" then "💬"
  else if run_type = "chain" then "🔗"
  else if run_type = "tool" then "🔧"
  else if run_type = "retriever" then "📚"
  else if run_type = "agent" then "🧭"
  else "⚙️"

/-- `_add_glyph(name, run_type)` (lines 121–132). The `name` argument may be
Python `None` (modelled `none`); `None` and `""` are falsy. -/
def addGlyph (name : Option String) (run_type : String) : String :=
  let glyph := glyphFor run_type
  match name with
  | none => "Unnamed"
  | some n =>
      if n ≠ "" ∧ ¬ n.startsWith glyph then glyph ++ " " ++ n
      else if n ≠ "" then n else "Unnamed"

/-- The name argument `on_llm_start` passes to `_add_glyph` (line 200):
`metadata.get("ls_model_name") if metadata else None or "LLM"`. By Python
precedence this parses as
`metadata.get("ls_model_name") if metadata else (None or "LLM")`, so a
truthy (non-empty) metadata dict without the key yields `None`. -/
def llmNameArg (metadata : Option (List (String × String))) : Option String :=
  match metadata with
  | some m => if m.isEmpty then some "LLM" else dget m "ls_model_name"
  | none => some "LLM"

/-- `on_llm_start` (lines 184–218): resolve the trace, compute the display
name, create a generation observation under the resolved trace with
`_get_parent_id(parent_run_id)` as parent, and register the run's
observation id (which is the run id itself). -/
def onLlmStart (h : Handler) (run_id : String) (parent_run_id : Option String)
    (metadata : Option (List (String × String))) : Handler :=
  let th := getOrCreateTrace h run_id parent_run_id
  let trace_id := th.1
  let h1 := th.2
  let name := addGlyph (llmNameArg metadata) "llm"
  let parent := getParentId h1 parent_run_id
  let obs : Observation :=
    { id := run_id, traceId := trace_id, name := name
      parentObservationId := parent }
  { h1 with
    log := h1.log ++ [ClientEvent.createObservation trace_id run_id name parent]
    run_to_observation_id := dset h1.run_to_observation_id run_id run_id
    observation_objects := dset h1.observation_objects run_id obs }

/-- `on_run_end` (lines 149–163): look up the observation by run id; if both
the id mapping and the handle exist, forward `obs.end(output=...)`;
otherwise do nothing. Never mutates the correlation maps, never raises. -/
def onRunEnd (h : Handler) (run_id : String) : Handler :=
  match dget h.run_to_observation_id run_id with
  | none => h
  | some obs_id =>
      match dget h.observation_objects obs_id with
      | none => h
      | some _ => { h with log := h.log ++ [ClientEvent.endObservation obs_id] }

/-- `on_run_error` (lines 165–182): same lookup policy as `on_run_end`, but
forwards an error-level closure carrying `str(error)`. -/
def onRunError (h : Handler) (run_id : String) (errorMessage : String) : Handler :=
  match dget h.run_to_observation_id run_id with
  | none => h
  | some obs_id =>
      match dget h.observation_objects obs_id with
      | none => h
      | some _ =>
          { h with
            log := h.log ++ [ClientEvent.endObservationWithError obs_id errorMessage] }

/-- `on_llm_end` (lines 220–245): same lookup policy as `on_run_end`;
forwards `generation.end(output=..., usage=...)` when the observation is
found. The output/usage payload is external data and not modelled. -/
def onLlmEnd (h : Handler) (run_id : String) : Handler :=
  match dget h.run_to_observation_id run_id with
  | none => h
  | some obs_id =>
      match dget h.observation_objects obs_id with
      | none => h
      | some _ => { h with log := h.log ++ [ClientEvent.endObservation obs_id] }

/-- A start event as fed to a start callback: run id, optional parent run
id, optional metadata dict. -/
structure StartEvent : Type where
  run_id : String
  parent_run_id : Option String
  metadata : Option (List (String × String))
  deriving Repr, DecidableEq

/-- Process a sequence of LLM start events in order. -/
def processStarts (h : Handler) (evs : List StartEvent) : Handler :=
  evs.foldl (fun s e => onLlmStart s e.run_id e.parent_run_id e.metadata) h

/-- The trace id `_get_or_create_trace` resolves for a start event processed
in state `h`. -/
def resolvedTraceOf (h : Handler) (e : StartEvent) : String :=
  (getOrCreateTrace h e.run_id e.parent_run_id).1

/-- `CoaiapyLangfuseCallbackHandler.__del__` (lines 497–503): inside
`try/except Exception: pass`, flush iff `flush_on_exit` and the `langfuse`
attribute exists. Arguments: the two booleans and the outcome the remote
client's `flush()` would produce. Returns whether a flush was attempted and
the outcome `__del__` presents to its caller. -/
def lfHandlerDel (flush_on_exit : Bool) (has_langfuse : Bool)
    (clientFlush : Except String Unit) : Bool × Except String Unit :=
  if flush_on_exit && has_langfuse then
    (true, match clientFlush with
      | Except.ok _ => Except.ok ()
      | Except.error _ => Except.ok ())
  else (false, Except.ok ())

/-- `NarrativeTracingHandler.__del__` (`narrative_tracing/handler.py`,
lines 668–673): `try: self.flush() except Exception: pass`, where `flush`
flushes iff the `langfuse` attribute exists. -/
def ntHandlerDel (has_langfuse : Bool)
    (clientFlush : Except String Unit) : Bool × Except String Unit :=
  if has_langfuse then
    (true, match clientFlush with
      | Except.ok _ => Except.ok ()
      | Except.error _ => Except.ok ())
  else (false, Except.ok ())

/-! ## Embedding of `NarrativeTraceOrchestrator`
(`libs/narrative-tracing/narrative_tracing/orchestrator.py`) -/

/-- The narrative event kinds used by the orchestrator's span records
(`event_types.py`, `NarrativeEventType`; only the constructors the
orchestrator assigns are modelled). -/
inductive NEventType : Type
  | BEAT_CREATED
  | BEAT_ANALYZED
  | FLOW_EXECUTED
  | BEAT_ENRICHED
  deriving Repr, DecidableEq

/-- The slice of a `NarrativeSpan` record the orchestrator's span map
stores and `finalize_story_trace` reads. -/
structure NSpan : Type where
  span_id : String
  trace_id : String
  eventType : NEventType
  story_id : String
  session_id : String
  deriving Repr, DecidableEq

/-- A `RootTrace`: identity fields plus the list of child span ids. -/
structure RootTrace : Type where
  trace_id : String
  story_id : String
  session_id : String
  child_span_ids : List String
  deriving Repr, DecidableEq

/-- A call the orchestrator forwards to the external Langfuse client. -/
inductive OrchClientEvent : Type
  | createTrace (traceId : String)
  | createSpan (traceId : String) (spanId : String)
  | updateTrace (traceId : String)
  | flush
  deriving Repr, DecidableEq

/-- State of a `NarrativeTraceOrchestrator`: the active root traces, the
span map, the `COAIAPY_SESSION_ID` environment value seen at creation
time, the fresh-uuid counter and the remote-client call log. -/
structure Orchestrator : Type where
  active_traces : List (String × RootTrace)
  spans : List (String × NSpan)
  env_session_id : Option String
  fresh : Nat
  log : List OrchClientEvent
  deriving Repr, DecidableEq

/-- A freshly constructed orchestrator (`__init__`). -/
def initOrchestrator (env_session_id : Option String) : Orchestrator :=
  { active_traces := []
    spans := []
    env_session_id := env_session_id
    fresh := 0
    log := [] }

/-- `a or b` on an optional Python string (`None` and `""` falsy). -/
def pyOrStr (a : Option String) (b : String) : String :=
  match a with
  | some s => if s = "" then b else s
  | none => b

/-- `create_story_generation_root` (lines 190–245):
`trace_id = trace_id or str(uuid.uuid4())`,
`session_id = session_id or os.environ.get("COAIAPY_SESSION_ID", str(uuid.uuid4()))`,
create the Langfuse trace, register the root in `active_traces`. The two
potential `uuid4` draws consume the fresh counter in source order. -/
def createStoryGenerationRoot (o : Orchestrator) (story_id : String)
    (session_id : Option String) (trace_id : Option String) :
    RootTrace × Orchestrator :=
  let tidNeedsFresh : Bool :=
    match trace_id with
    | some t => t = ""
    | none => true
  let tid := if tidNeedsFresh then uuidGen o.fresh else pyOrStr trace_id ""
  let fresh1 := if tidNeedsFresh then o.fresh + 1 else o.fresh
  let envDefault :=
    match o.env_session_id with
    | some s => (s, fresh1)
    | none => (uuidGen fresh1, fresh1 + 1)
  let sidPair :=
    match session_id with
    | some s => if s = "" then envDefault else (s, fresh1)
    | none => envDefault
  let sid := sidPair.1
  let fresh2 := sidPair.2
  let root : RootTrace :=
    { trace_id := tid, story_id := story_id, session_id := sid
      child_span_ids := [] }
  (root, { o with
    active_traces := dset o.active_traces tid root
    fresh := fresh2
    log := o.log ++ [OrchClientEvent.createTrace tid] })

/-- `create_analysis_span` (lines 322–400): raises `ValueError` for an
unknown trace id; otherwise creates a span under the root trace, records
a `NarrativeSpan` with `BEAT_ANALYZED`, and appends the span id to the
root's `child_span_ids`. Returns the outcome and the state (unchanged on
error). -/
def createAnalysisSpan (o : Orchestrator) (trace_id : String) :
    Except String String × Orchestrator :=
  match dget o.active_traces trace_id with
  | none => (Except.error ("Unknown trace ID: " ++ trace_id), o)
  | some root =>
      let span_id := uuidGen o.fresh
      let nspan : NSpan :=
        { span_id := span_id, trace_id := trace_id
          eventType := NEventType.BEAT_ANALYZED
          story_id := root.story_id, session_id := root.session_id }
      let root' := { root with child_span_ids := root.child_span_ids ++ [span_id] }
      (Except.ok span_id, { o with
        active_traces := dset o.active_traces trace_id root'
        spans := dset o.spans span_id nspan
        fresh := o.fresh + 1
        log := o.log ++ [OrchClientEvent.createSpan trace_id span_id] })

/-- Header-name constant `TRACE_ID_HEADER` (line 156). -/
def TRACE_ID_HEADER : String := "X-Narrative-Trace-Id"

/-- Header-name constant `STORY_ID_HEADER` (line 157). -/
def STORY_ID_HEADER : String := "X-Story-Id"

/-- Header-name constant `SESSION_ID_HEADER` (line 158). -/
def SESSION_ID_HEADER : String := "X-Session-Id"

/-- Header-name constant `PARENT_SPAN_HEADER` (line 159). -/
def PARENT_SPAN_HEADER : String := "X-Parent-Span-Id"

/-- `inject_correlation_header(headers, trace_id, parent_span_id)`
(lines 542–567): under `if trace_id and trace_id in self.active_traces:`,
set the four headers (the parent header only under `if parent_span_id:`);
return the headers dict. `None` and `""` are falsy. -/
def injectCorrelationHeader (o : Orchestrator) (headers : List (String × String))
    (trace_id : Option String) (parent_span_id : Option String) :
    List (String × String) :=
  match trace_id with
  | none => headers
  | some t =>
      if t = "" then headers
      else
        match dget o.active_traces t with
        | none => headers
        | some root =>
            let h1 := dset headers TRACE_ID_HEADER t
            let h2 := dset h1 STORY_ID_HEADER root.story_id
            let h3 := dset h2 SESSION_ID_HEADER root.session_id
            match parent_span_id with
            | some p => if p = "" then h3 else dset h3 PARENT_SPAN_HEADER p
            | none => h3

/-- `extract_correlation_header(headers)` (lines 569–587): the four
`headers.get(...)` reads, as a tuple. -/
def extractCorrelationHeader (headers : List (String × String)) :
    Option String × Option String × Option String × Option String :=
  (dget headers TRACE_ID_HEADER,
   dget headers STORY_ID_HEADER,
   dget headers SESSION_ID_HEADER,
   dget headers PARENT_SPAN_HEADER)

/-- The data `finalize_story_trace` returns (`CompletedTrace`, timing and
metrics fields omitted as external clock data). -/
structure Completed : Type where
  trace_id : String
  story_id : String
  session_id : String
  spans : List NSpan
  beat_count : Nat
  deriving Repr, DecidableEq

/-- `finalize_story_trace(trace_id, ...)` (lines 612–684): raise
`ValueError` for an unknown trace id (state untouched); otherwise gather
the root's child spans, build the `CompletedTrace`, forward the trace
update and a flush to the client, delete the root from `active_traces`
and delete each child span id from `spans`. -/
def finalizeStoryTrace (o : Orchestrator) (trace_id : String) :
    Except String Completed × Orchestrator :=
  match dget o.active_traces trace_id with
  | none => (Except.error ("Unknown trace ID: " ++ trace_id), o)
  | some root =>
      let gathered := root.child_span_ids.filterMap (fun sid => dget o.spans sid)
      let beat_count :=
        (gathered.filter (fun s => s.eventType = NEventType.BEAT_CREATED)).length
      let completed : Completed :=
        { trace_id := trace_id, story_id := root.story_id
          session_id := root.session_id, spans := gathered
          beat_count := beat_count }
      let spans' := root.child_span_ids.foldl (fun m sid => ddel m sid) o.spans
      (Except.ok completed, { o with
        active_traces := ddel o.active_traces trace_id
        spans := spans'
        log := o.log ++ [OrchClientEvent.updateTrace trace_id, OrchClientEvent.flush] })

/-! ## Supporting lemmas -/

/-- Every binding of an updated dict is the new binding or an old one. -/
theorem mem_dset {α : Type} {m : List (String × α)} {k : String} {v : α}
    {q : String × α} (h : q ∈ dset m k v) : q = (k, v) ∨ q ∈ m := by
  induction m with
  | nil => simpa [dset] using h
  | cons p rest ih =>
      obtain ⟨k0, v0⟩ := p
      by_cases h0 : k0 = k
      · subst h0
        rcases List.mem_cons.mp (by simpa [dset] using h) with h1 | h1
        · exact Or.inl h1
        · exact Or.inr (List.mem_cons_of_mem _ h1)
      · rcases List.mem_cons.mp (by simpa [dset, h0] using h) with h1 | h1
        · exact Or.inr (List.mem_cons.mpr (Or.inl h1))
        · rcases ih h1 with h2 | h2
          · exact Or.inl h2
          · exact Or.inr (List.mem_cons_of_mem _ h2)

/-- Deleting only removes bindings. -/
theorem mem_ddel {α : Type} {m : List (String × α)} {k : String}
    {q : String × α} (h : q ∈ ddel m k) : q ∈ m := by
  induction m with
  | nil => simp [ddel] at h
  | cons p rest ih =>
      obtain ⟨k0, v0⟩ := p
      by_cases h0 : k0 = k
      · simp only [ddel, h0, if_pos rfl] at h
        exact List.mem_cons_of_mem _ (ih (by simpa [h0] using h))
      · rcases List.mem_cons.mp (by simpa [ddel, h0] using h) with h1 | h1
        · exact List.mem_cons.mpr (Or.inl h1)
        · exact List.mem_cons_of_mem _ (ih h1)

/-- Folding deletions over a list of keys: a key in the list is gone, any
other key is untouched. -/
theorem dget_foldl_ddel {α : Type} (l : List String) (m : List (String × α))
    (k : String) :
    dget (l.foldl (fun m' s => ddel m' s) m) k =
      if k ∈ l then none else dget m k := by
  induction l generalizing m with
  | nil => simp
  | cons a l ih =>
      by_cases ha : k = a
      · subst ha
        simp only [List.foldl_cons, ih (ddel m k), dget_ddel_self]
        simp
      · simp only [List.foldl_cons, ih (ddel m a), dget_ddel_ne m a k fun h => ha h.symm]
        simp [ha]

/-- `_get_or_create_trace` when the run is already mapped: returns the
mapped trace and leaves the whole handler state untouched. -/
theorem getOrCreateTrace_of_lookup (h : Handler) (run_id t : String)
    (parent_run_id : Option String)
    (ht : dget h.run_to_trace_id run_id = some t) :
    getOrCreateTrace h run_id parent_run_id = (t, h) := by
  simp [getOrCreateTrace, ht]

/-- `_get_or_create_trace` when the run is fresh and the parent is mapped:
inherit the parent's trace and register only the new map entry. -/
theorem getOrCreateTrace_inherit (h : Handler) (run_id p0 tp : String)
    (hr : dget h.run_to_trace_id run_id = none)
    (hp : dget h.run_to_trace_id p0 = some tp) :
    getOrCreateTrace h run_id (some p0) =
      (tp, { h with run_to_trace_id := dset h.run_to_trace_id run_id tp }) := by
  simp [getOrCreateTrace, hr, hp]

/-- After `_get_or_create_trace`, the run is mapped to the resolved trace. -/
theorem getOrCreateTrace_self_lookup (h : Handler) (run_id : String)
    (parent_run_id : Option String) :
    dget (getOrCreateTrace h run_id parent_run_id).2.run_to_trace_id run_id =
      some (getOrCreateTrace h run_id parent_run_id).1 := by
  unfold getOrCreateTrace
  cases hd : dget h.run_to_trace_id run_id with
  | some t => simp [hd]
  | none =>
      cases parent_run_id with
      | none =>
          simp only [hd]
          split <;> simp
      | some pp =>
          cases hp : dget h.run_to_trace_id pp with
          | some pt => simp [hd, hp]
          | none =>
              simp only [hd, hp]
              split <;> simp

/-- `_get_or_create_trace` never overwrites an existing map entry. -/
theorem getOrCreateTrace_preserves (h : Handler) (run_id r t : String)
    (parent_run_id : Option String)
    (hr : dget h.run_to_trace_id r = some t) :
    dget (getOrCreateTrace h run_id parent_run_id).2.run_to_trace_id r = some t := by
  have hne : ∀ hrun : dget h.run_to_trace_id run_id = none, run_id ≠ r := by
    intro hrun he
    rw [he, hr] at hrun
    cases hrun
  unfold getOrCreateTrace
  cases hd : dget h.run_to_trace_id run_id with
  | some t' => simpa using hr
  | none =>
      cases parent_run_id with
      | none =>
          simp only [hd]
          split <;> simp [dget_dset_ne _ _ _ _ (hne hd), hr]
      | some pp =>
          cases hp : dget h.run_to_trace_id pp with
          | some pt => simp [hd, hp, dget_dset_ne _ _ _ _ (hne hd), hr]
          | none =>
              simp only [hd, hp]
              split <;> simp [dget_dset_ne _ _ _ _ (hne hd), hr]

/-- `on_llm_start` changes the run→trace map exactly as
`_get_or_create_trace` does. -/
theorem onLlmStart_run_to_trace_id (h : Handler) (run_id : String)
    (parent_run_id : Option String) (metadata : Option (List (String × String))) :
    (onLlmStart h run_id parent_run_id metadata).run_to_trace_id =
      (getOrCreateTrace h run_id parent_run_id).2.run_to_trace_id := rfl

/-- After `on_llm_start`, the run is mapped to its resolved trace. -/
theorem onLlmStart_self_lookup (h : Handler) (run_id : String)
    (parent_run_id : Option String) (metadata : Option (List (String × String))) :
    dget (onLlmStart h run_id parent_run_id metadata).run_to_trace_id run_id =
      some (resolvedTraceOf h ⟨run_id, parent_run_id, metadata⟩) := by
  rw [onLlmStart_run_to_trace_id]
  exact getOrCreateTrace_self_lookup h run_id parent_run_id

/-- `on_llm_start` never overwrites an existing run→trace map entry. -/
theorem onLlmStart_preserves (h : Handler) (run_id r t : String)
    (parent_run_id : Option String) (metadata : Option (List (String × String)))
    (hr : dget h.run_to_trace_id r = some t) :
    dget (onLlmStart h run_id parent_run_id metadata).run_to_trace_id r = some t := by
  rw [onLlmStart_run_to_trace_id]
  exact getOrCreateTrace_preserves h run_id r t parent_run_id hr

/-- Processing further start events never overwrites a run→trace entry. -/
theorem processStarts_preserves (evs : List StartEvent) (h : Handler)
    (r t : String) (hr : dget h.run_to_trace_id r = some t) :
    dget (processStarts h evs).run_to_trace_id r = some t := by
  induction evs generalizing h with
  | nil => simpa [processStarts] using hr
  | cons e evs ih =>
      simpa [processStarts] using
        ih _ (onLlmStart_preserves h e.run_id r t e.parent_run_id e.metadata hr)

/-- Processing a concatenation is processing the parts in order. -/
theorem processStarts_append (h : Handler) (evs evs' : List StartEvent) :
    processStarts h (evs ++ evs') = processStarts (processStarts h evs) evs' := by
  simp [processStarts]

/-- `_get_or_create_trace` never touches the run→observation map. -/
theorem getOrCreateTrace_run_to_observation_id (h : Handler) (run_id : String)
    (parent_run_id : Option String) :
    (getOrCreateTrace h run_id parent_run_id).2.run_to_observation_id =
      h.run_to_observation_id := by
  unfold getOrCreateTrace
  cases hd : dget h.run_to_trace_id run_id with
  | some t => simp
  | none =>
      cases parent_run_id with
      | none =>
          simp only
          split <;> rfl
      | some pp =>
          cases hp : dget h.run_to_trace_id pp with
          | some pt => simp [hp]
          | none =>
              simp only [hp]
              split <;> rfl

/-- Handler correlation-map invariant: every binding of the run→observation
map maps a run id to itself (observation ids are run ids in this handler),
and every run with an observation also has a trace. Holds for all states
reachable through start callbacks. -/
def HandlerInv (h : Handler) : Prop :=
  ∀ q ∈ h.run_to_observation_id,
    q.2 = q.1 ∧ (dget h.run_to_trace_id q.1).isSome

instance (h : Handler) : Decidable (HandlerInv h) := by
  unfold HandlerInv
  infer_instance

/-- A fresh handler satisfies the correlation-map invariant. -/
theorem handlerInv_init (d : Option String) : HandlerInv (initHandler d) := by
  intro q hq
  simp [initHandler] at hq

/-- `on_llm_start` preserves the correlation-map invariant. -/
theorem handlerInv_onLlmStart (h : Handler) (run_id : String)
    (parent_run_id : Option String) (metadata : Option (List (String × String)))
    (hinv : HandlerInv h) : HandlerInv (onLlmStart h run_id parent_run_id metadata) := by
  intro q hq
  have hobs : (onLlmStart h run_id parent_run_id metadata).run_to_observation_id =
      dset (getOrCreateTrace h run_id parent_run_id).2.run_to_observation_id
        run_id run_id := rfl
  rw [hobs, getOrCreateTrace_run_to_observation_id] at hq
  rcases mem_dset hq with hq1 | hq1
  · subst hq1
    refine ⟨rfl, ?_⟩
    rw [onLlmStart_run_to_trace_id]
    simp [getOrCreateTrace_self_lookup]
  · obtain ⟨he, hsome⟩ := hinv q hq1
    refine ⟨he, ?_⟩
    obtain ⟨t, ht⟩ := Option.isSome_iff_exists.mp hsome
    rw [onLlmStart_preserves h run_id q.1 t parent_run_id metadata ht]
    rfl

/-- Synthesized identifiers are never the empty string (truthiness-safe). -/
theorem uuidGen_ne_empty (n : Nat) : uuidGen n ≠ "" := by
  intro hc
  have hlen : (uuidGen n).length = 0 := by rw [hc]; rfl
  simp [uuidGen, String.length] at hlen

/-- Every trace id `create_story_generation_root` registers in
`active_traces` is non-empty: the caller-supplied id is used only when
truthy, and synthesized identifiers are never empty. This is what makes
the `if trace_id:` truthiness test in `inject_correlation_header` harmless
for identifiers actually registered by the orchestrator. -/
theorem createRoot_key_ne_empty (o : Orchestrator) (story_id : String)
    (session_id trace_id : Option String) :
    ((createStoryGenerationRoot o story_id session_id trace_id).1).trace_id ≠ "" := by
  unfold createStoryGenerationRoot
  cases trace_id with
  | none => simpa using uuidGen_ne_empty o.fresh
  | some t =>
      by_cases ht : t = ""
      · subst ht
        simpa using uuidGen_ne_empty o.fresh
      · simp [ht, pyOrStr]

/-! ## Claim theorems -/

/-- C3: an end or error event whose run identifier has no prior matching
start event in the correlation maps leaves the handler state (every trace
and span record, and the forwarded-call log) unchanged, and the embedded
transition is a total function, mirroring that the source raises no error
on this path (`on_run_end` lines 149–163, `on_run_error` lines 165–182,
`on_llm_end` lines 220–245: a failed `dict.get` short-circuits the body). -/
theorem C3_unmatched_end_error_noop (h : Handler) (run_id errorMessage : String)
    (hmiss : dget h.run_to_observation_id run_id = none) :
    onRunEnd h run_id = h ∧ onRunError h run_id errorMessage = h ∧
      onLlmEnd h run_id = h := by
  refine ⟨?_, ?_, ?_⟩ <;> simp [onRunEnd, onRunError, onLlmEnd, hmiss]

/-- Witness for C3: an end and an error event arriving at a fresh handler
(no start ever observed for run `"A"`) change nothing. -/
theorem C3_unmatched_end_error_noop_witness :
    onRunEnd (initHandler none) "A" = initHandler none ∧
      onRunError (initHandler none) "A" "boom" = initHandler none ∧
      onLlmEnd (initHandler none) "A" = initHandler none :=
  C3_unmatched_end_error_noop (initHandler none) "A" "boom" (by decide)

/-- C5 (code bug): `on_llm_start` line 200 reads
`metadata.get("ls_model_name") if metadata else None or "LLM"`, which by
Python precedence is `... if metadata else (None or "LLM")`. For a truthy
metadata dict without `ls_model_name` the name argument is `None` and
`_add_glyph` falls back to the glyph-less `"Unnamed"` instead of the
per-kind fallback `"🤖 LLM"` the spec describes (and which the dead
`or "LLM"` in the source clearly intends). This theorem evaluates the
embedded code: the failing input (non-empty metadata without the key)
yields `"Unnamed"`, while the intended fallback is produced only when
metadata is absent or empty, and the declared name works only when the
key is present. -/
theorem C5_llm_name_fallback_broken :
    addGlyph (llmNameArg (some [("temperature", "0.7")])) "llm" = "Unnamed" ∧
      addGlyph (llmNameArg none) "llm" = "🤖 LLM" ∧
      addGlyph (llmNameArg (some [])) "llm" = "🤖 LLM" ∧
      addGlyph (llmNameArg (some [("ls_model_name", "gpt-4")])) "llm" = "🤖 gpt-4" ∧
      (dget (onLlmStart (initHandler none) "A" none
          (some [("temperature", "0.7")])).observation_objects "A").map
        Observation.name = some "Unnamed" := by
  refine ⟨?_, ?_, ?_, ?_, ?_⟩ <;> decide

/-- C7: trace resolution is idempotent per run. If the run identifier is
already in the run→trace correlation map, `_get_or_create_trace` returns
that trace id and the entire handler state — correlation map, created
traces and client log included — unchanged, whatever parent run id is
passed (lines 94–96 return before any mutation). -/
theorem C7_trace_resolution_idempotent (h : Handler) (run_id t : String)
    (parent_run_id : Option String)
    (ht : dget h.run_to_trace_id run_id = some t) :
    getOrCreateTrace h run_id parent_run_id = (t, h) :=
  getOrCreateTrace_of_lookup h run_id t parent_run_id ht

/-- Witness for C7: after a first start for run `"A"`, a repeated
resolution with a different parent returns the same trace and the same
state. -/
theorem C7_trace_resolution_idempotent_witness :
    getOrCreateTrace (onLlmStart (initHandler none) "A" none none) "A"
        (some "Z")
      = (uuidGen 0, onLlmStart (initHandler none) "A" none none) :=
  C7_trace_resolution_idempotent (onLlmStart (initHandler none) "A" none none)
    "A" (uuidGen 0) (some "Z") (by decide)

/-- C9: handler teardown never raises. Both `__del__` implementations
(`langfuse_handler.py` lines 497–503, `narrative_tracing/handler.py`
lines 668–673) wrap the flush in `try/except Exception: pass`: whatever
outcome the remote client's `flush()` produces, `__del__` returns
normally; and a flush is attempted exactly when flush-on-exit is enabled
and the client attribute exists (for the narrative handler, always when
the client exists). -/
theorem C9_teardown_never_raises :
    ∀ (flush_on_exit has_langfuse : Bool) (c c' : Except String Unit),
      (lfHandlerDel flush_on_exit has_langfuse c).2 = Except.ok () ∧
        (lfHandlerDel flush_on_exit has_langfuse c).1 = (flush_on_exit && has_langfuse) ∧
        (ntHandlerDel has_langfuse c').2 = Except.ok () ∧
        (ntHandlerDel has_langfuse c').1 = has_langfuse := by
  intro f hl c c'
  cases f <;> cases hl <;> cases c <;> cases c' <;>
    simp [lfHandlerDel, ntHandlerDel]

/-- C1 (counterexample): the claim quantifies over every sequence of start
events with B's parent equal to A's run and A's start before B's start. It
fails when B's run already received an earlier start event: idempotence
(lines 94–96) wins over parent inheritance (lines 98–103). Sequence:
start(B, no parent); start(A, no parent); start(B, parent = A). The third
event carries parent A and is processed after A's start, yet resolves B's
earlier trace, not A's trace. -/
theorem C1_counterexample :
    (⟨"B", some "A", none⟩ : StartEvent).parent_run_id =
        some (⟨"A", none, none⟩ : StartEvent).run_id ∧
      resolvedTraceOf
          (processStarts (initHandler none)
            [⟨"B", none, none⟩, ⟨"A", none, none⟩])
          ⟨"B", some "A", none⟩
        ≠ resolvedTraceOf (processStarts (initHandler none) [⟨"B", none, none⟩])
            ⟨"A", none, none⟩ :=
  ⟨rfl, by decide⟩

/-- C1 (amended): for every sequence of start events in which B carries
A's run id as parent, A's start is processed before B's start, and B's run
identifier has not already been assigned a trace when B's start is
processed, B's resolved trace identifier equals A's resolved trace
identifier. -/
theorem C1_child_inherits_parent_trace (h0 : Handler) (pre mid : List StartEvent)
    (A B : StartEvent)
    (hparent : B.parent_run_id = some A.run_id)
    (hnew : dget (processStarts h0 (pre ++ A :: mid)).run_to_trace_id B.run_id
      = none) :
    resolvedTraceOf (processStarts h0 (pre ++ A :: mid)) B =
      resolvedTraceOf (processStarts h0 pre) A := by
  have hsplit : processStarts h0 (pre ++ A :: mid) =
      processStarts
        (onLlmStart (processStarts h0 pre) A.run_id A.parent_run_id A.metadata)
        mid := by
    rw [show pre ++ A :: mid = (pre ++ [A]) ++ mid by simp,
        processStarts_append, processStarts_append]
    rfl
  have hA : dget
      (onLlmStart (processStarts h0 pre) A.run_id A.parent_run_id
        A.metadata).run_to_trace_id A.run_id
      = some (resolvedTraceOf (processStarts h0 pre) A) := by
    simpa using
      onLlmStart_self_lookup (processStarts h0 pre) A.run_id A.parent_run_id
        A.metadata
  have hAfin : dget (processStarts h0 (pre ++ A :: mid)).run_to_trace_id A.run_id
      = some (resolvedTraceOf (processStarts h0 pre) A) := by
    rw [hsplit]
    exact processStarts_preserves mid _ _ _ hA
  unfold resolvedTraceOf
  rw [hparent,
      getOrCreateTrace_inherit (processStarts h0 (pre ++ A :: mid)) B.run_id
        A.run_id (resolvedTraceOf (processStarts h0 pre) A) hnew hAfin]
  rfl

/-- Witness for C1 (amended): a fresh run B whose parent A was started
first joins A's trace. -/
theorem C1_child_inherits_parent_trace_witness :
    dget (processStarts (initHandler none)
        [⟨"A", none, none⟩]).run_to_trace_id "B" = none ∧
      resolvedTraceOf (processStarts (initHandler none) [⟨"A", none, none⟩])
          ⟨"B", some "A", none⟩
        = resolvedTraceOf (initHandler none) ⟨"A", none, none⟩ :=
  ⟨by decide,
    C1_child_inherits_parent_trace (initHandler none) [] [] ⟨"A", none, none⟩
      ⟨"B", some "A", none⟩ rfl (by decide)⟩

/-- C2 (counterexample): `on_run_end` (lines 149–163) performs no
bookkeeping when closing: the observation stays registered in both maps
and `obs.end(...)` is called on every end event whose run has an
observation. After start(A); end(A), a second end(A) forwards a second
closure to the remote client — so the second end event is not a no-op as
claimed. -/
theorem C2_counterexample :
    ((onRunEnd (onLlmStart (initHandler none) "A" none none) "A").log).count
        (ClientEvent.endObservation "A") = 1 ∧
      ((onRunEnd (onRunEnd (onLlmStart (initHandler none) "A" none none) "A")
          "A").log).count (ClientEvent.endObservation "A") = 2 :=
  ⟨by decide, by decide⟩

/-- C2 (amended): for every run identifier with a registered observation,
each end event — the second one included — leaves every correlation map,
trace record and observation record of the handler unchanged, and
forwards exactly one (duplicate, for repeated ends) closure to the remote
client. -/
theorem C2_second_end_forwards_again (h : Handler) (run_id obs_id : String)
    (hrun : dget h.run_to_observation_id run_id = some obs_id)
    (hobs : (dget h.observation_objects obs_id).isSome) :
    onRunEnd h run_id
        = { h with log := h.log ++ [ClientEvent.endObservation obs_id] } ∧
      onLlmEnd h run_id
        = { h with log := h.log ++ [ClientEvent.endObservation obs_id] } := by
  obtain ⟨o, ho⟩ := Option.isSome_iff_exists.mp hobs
  exact ⟨by simp [onRunEnd, hrun, ho], by simp [onLlmEnd, hrun, ho]⟩

/-- Witness for C2 (amended): the state after start(A); end(A) still has
A's observation registered, and the second end(A) appends exactly one
more closure while changing nothing else. -/
theorem C2_second_end_forwards_again_witness :
    dget (onRunEnd (onLlmStart (initHandler none) "A" none none)
        "A").run_to_observation_id "A" = some "A" ∧
      onRunEnd (onRunEnd (onLlmStart (initHandler none) "A" none none) "A") "A"
        = { onRunEnd (onLlmStart (initHandler none) "A" none none) "A" with
            log := (onRunEnd (onLlmStart (initHandler none) "A" none none)
              "A").log ++ [ClientEvent.endObservation "A"] } :=
  ⟨by decide,
    (C2_second_end_forwards_again
      (onRunEnd (onLlmStart (initHandler none) "A" none none) "A") "A" "A"
      (by decide) (by decide)).1⟩

/-- C4 (counterexample): after start(B, no parent); start(A, no parent);
start(B, parent = A), the observation created for B's second start event
carries A's observation as `parent_observation_id`, yet run A resolves to
a different trace than the observation's own trace (idempotence keeps B on
its first trace while `_get_parent_id` still links to A's observation):
the spans-parent-in-same-trace invariant is violated. -/
theorem C4_counterexample :
    (dget (processStarts (initHandler none)
          [⟨"B", none, none⟩, ⟨"A", none, none⟩,
            ⟨"B", some "A", none⟩]).observation_objects "B").map
        Observation.parentObservationId = some (some "A") ∧
      (dget (processStarts (initHandler none)
          [⟨"B", none, none⟩, ⟨"A", none, none⟩,
            ⟨"B", some "A", none⟩]).observation_objects "B").map
        Observation.traceId
        ≠ dget (processStarts (initHandler none)
            [⟨"B", none, none⟩, ⟨"A", none, none⟩,
              ⟨"B", some "A", none⟩]).run_to_trace_id "A" :=
  ⟨by decide, by decide⟩

/-- C4 (amended): for every span created by a start event whose run
identifier has not already been assigned a trace, if the span carries a
parent observation identifier, then the run to which that observation
identifier belongs is mapped to the very trace of the span's own run —
a first-start span's parent always belongs to the same trace. -/
theorem C4_parent_in_same_trace (h : Handler) (run_id : String)
    (parent_run_id : Option String) (metadata : Option (List (String × String)))
    (hinv : HandlerInv h)
    (hnew : dget h.run_to_trace_id run_id = none)
    (obs : Observation)
    (hobs : dget (onLlmStart h run_id parent_run_id metadata).observation_objects
      run_id = some obs)
    (q : String) (hq : obs.parentObservationId = some q) :
    dget (onLlmStart h run_id parent_run_id metadata).run_to_trace_id q
        = some obs.traceId ∧
      dget (onLlmStart h run_id parent_run_id metadata).run_to_trace_id run_id
        = some obs.traceId := by
  have hobsmap :
      (onLlmStart h run_id parent_run_id metadata).observation_objects
        = dset (getOrCreateTrace h run_id parent_run_id).2.observation_objects
            run_id
            { id := run_id
              traceId := (getOrCreateTrace h run_id parent_run_id).1
              name := addGlyph (llmNameArg metadata) "llm"
              parentObservationId :=
                getParentId (getOrCreateTrace h run_id parent_run_id).2
                  parent_run_id } := rfl
  rw [hobsmap, dget_dset_self] at hobs
  injection hobs with hobs'
  subst hobs'
  simp only [getParentId, getOrCreateTrace_run_to_observation_id] at hq
  cases parent_run_id with
  | none => cases hq
  | some p0 =>
      obtain ⟨hq_eq, hsome⟩ := hinv (p0, q) (mem_of_dget_eq_some hq)
      obtain ⟨tp, htp⟩ := Option.isSome_iff_exists.mp hsome
      simp only at hq_eq
      subst hq_eq
      have hne : run_id ≠ q := by
        intro he
        rw [he, htp] at hnew
        cases hnew
      have hres := getOrCreateTrace_inherit h run_id q tp hnew htp
      rw [onLlmStart_run_to_trace_id, hres]
      exact ⟨by simp [dget_dset_ne _ _ _ _ hne, htp], by simp⟩

/-- Witness for C4 (amended): run B's first start with parent A (started
first): B's observation links to A's observation and run A is mapped to
B's trace. -/
theorem C4_parent_in_same_trace_witness :
    dget (onLlmStart (onLlmStart (initHandler none) "A" none none) "B"
        (some "A") none).run_to_trace_id "A"
      = some (Observation.traceId
          { id := "B", traceId := uuidGen 0, name := "🤖 LLM"
            parentObservationId := some "A" }) ∧
    dget (onLlmStart (onLlmStart (initHandler none) "A" none none) "B"
        (some "A") none).run_to_trace_id "B"
      = some (Observation.traceId
          { id := "B", traceId := uuidGen 0, name := "🤖 LLM"
            parentObservationId := some "A" }) :=
  C4_parent_in_same_trace (onLlmStart (initHandler none) "A" none none) "B"
    (some "A") none (by decide) (by decide)
    { id := "B", traceId := uuidGen 0, name := "🤖 LLM"
      parentObservationId := some "A" }
    (by decide) "A" rfl

/-- C6: with no configured default trace id, two top-level start events
with distinct run identifiers and no parent resolve two distinct,
freshly synthesized trace identifiers, and each of the two traces is
created in the remote client exactly once (`_get_or_create_trace` lines
105–119: the fresh uuid is registered and `langfuse.trace` is called
under the not-yet-created guard). -/
theorem C6_independent_roots_distinct (A B : String) (hAB : A ≠ B) :
    (getOrCreateTrace (initHandler none) A none).1
        ≠ (getOrCreateTrace (getOrCreateTrace (initHandler none) A none).2
            B none).1 ∧
      ((getOrCreateTrace (getOrCreateTrace (initHandler none) A none).2
          B none).2.log.count
        (ClientEvent.createTrace (getOrCreateTrace (initHandler none) A none).1)
        = 1) ∧
      ((getOrCreateTrace (getOrCreateTrace (initHandler none) A none).2
          B none).2.log.count
        (ClientEvent.createTrace
          (getOrCreateTrace (getOrCreateTrace (initHandler none) A none).2
            B none).1) = 1) := by
  have hne01 : uuidGen 0 ≠ uuidGen 1 := by
    intro hc
    exact absurd (uuidGen_injective hc) (by simp)
  have e1 : getOrCreateTrace (initHandler none) A none
      = (uuidGen 0,
          { default_trace_id := none
            run_to_trace_id := [(A, uuidGen 0)]
            run_to_observation_id := []
            trace_objects := [uuidGen 0]
            observation_objects := []
            fresh := 1
            log := [ClientEvent.createTrace (uuidGen 0)] }) := rfl
  rw [e1]
  have hd2 : dget [(A, uuidGen 0)] B = none := by simp [hAB]
  have hcont : ([uuidGen 0].contains (uuidGen 1)) = false := by
    simp [hne01.symm]
  refine ⟨?_, ?_, ?_⟩ <;>
    simp [getOrCreateTrace, hd2, defaultOrFresh, hcont, hne01,
      List.count_cons, hne01.symm]

/-- Witness for C6 at distinct concrete run identifiers. -/
theorem C6_independent_roots_distinct_witness :
    (getOrCreateTrace (initHandler none) "a" none).1
        ≠ (getOrCreateTrace (getOrCreateTrace (initHandler none) "a" none).2
            "b" none).1 ∧
      ((getOrCreateTrace (getOrCreateTrace (initHandler none) "a" none).2
          "b" none).2.log.count
        (ClientEvent.createTrace (getOrCreateTrace (initHandler none) "a" none).1)
        = 1) ∧
      ((getOrCreateTrace (getOrCreateTrace (initHandler none) "a" none).2
          "b" none).2.log.count
        (ClientEvent.createTrace
          (getOrCreateTrace (getOrCreateTrace (initHandler none) "a" none).2
            "b" none).1) = 1) :=
  C6_independent_roots_distinct "a" "b" (by decide)

/-- C8 (counterexample): with `"t0"` registered in the orchestrator's
active traces, injecting with the explicitly given parent span identifier
`""` and extracting does not return the given parent span identifier:
`inject_correlation_header`'s `if parent_span_id:` treats the empty
string as absent, so extraction yields `None` where the claim requires
the given value. -/
theorem C8_counterexample :
    (dget ((createStoryGenerationRoot (initOrchestrator none) "s" (some "sess")
        (some "t0")).2).active_traces "t0").isSome ∧
      extractCorrelationHeader
          (injectCorrelationHeader
            (createStoryGenerationRoot (initOrchestrator none) "s" (some "sess")
              (some "t0")).2 [] (some "t0") (some ""))
        ≠ (some "t0", some "s", some "sess", some "") :=
  ⟨by decide, by decide⟩

/-- C8 (amended): for every non-empty trace identifier present in the
orchestrator's active traces (every identifier the orchestrator registers
is non-empty, see `createRoot_key_ne_empty`) and every parent span
identifier that is either absent or non-empty, extraction after injection
into an empty header map returns exactly the trace identifier, the
trace's story identifier, the trace's session identifier and the given
parent span identifier (`none` when none was given); and extraction of a
header map missing any of the four keys yields `none` for the
corresponding tuple member. -/
theorem C8_header_roundtrip (o : Orchestrator) (t : String) (root : RootTrace)
    (p : Option String)
    (hroot : dget o.active_traces t = some root) (ht : t ≠ "")
    (hp : p = none ∨ ∃ s, p = some s ∧ s ≠ "") :
    extractCorrelationHeader (injectCorrelationHeader o [] (some t) p)
        = (some t, some root.story_id, some root.session_id, p) ∧
      ∀ hs : List (String × String),
        (dget hs TRACE_ID_HEADER = none →
          (extractCorrelationHeader hs).1 = none) ∧
        (dget hs STORY_ID_HEADER = none →
          (extractCorrelationHeader hs).2.1 = none) ∧
        (dget hs SESSION_ID_HEADER = none →
          (extractCorrelationHeader hs).2.2.1 = none) ∧
        (dget hs PARENT_SPAN_HEADER = none →
          (extractCorrelationHeader hs).2.2.2 = none) := by
  constructor
  · have hTS : TRACE_ID_HEADER ≠ STORY_ID_HEADER := by decide
    have hTSe : TRACE_ID_HEADER ≠ SESSION_ID_HEADER := by decide
    have hTP : TRACE_ID_HEADER ≠ PARENT_SPAN_HEADER := by decide
    have hSSe : STORY_ID_HEADER ≠ SESSION_ID_HEADER := by decide
    have hSP : STORY_ID_HEADER ≠ PARENT_SPAN_HEADER := by decide
    have hSeP : SESSION_ID_HEADER ≠ PARENT_SPAN_HEADER := by decide
    rcases hp with rfl | ⟨s, rfl, hs⟩
    · simp [injectCorrelationHeader, extractCorrelationHeader, ht, hroot,
        dget_dset_ne _ _ _ _ hSSe.symm, dget_dset_ne _ _ _ _ hTSe.symm,
        dget_dset_ne _ _ _ _ hTS.symm, dget_dset_ne _ _ _ _ hTP.symm,
        dget_dset_ne _ _ _ _ hSP.symm, dget_dset_ne _ _ _ _ hSeP.symm,
        dget_dset_ne _ _ _ _ hSSe, dget_dset_ne _ _ _ _ hTSe,
        dget_dset_ne _ _ _ _ hTS, dget_dset_ne _ _ _ _ hTP,
        dget_dset_ne _ _ _ _ hSP, dget_dset_ne _ _ _ _ hSeP]
    · simp [injectCorrelationHeader, extractCorrelationHeader, ht, hroot, hs,
        dget_dset_ne _ _ _ _ hSSe.symm, dget_dset_ne _ _ _ _ hTSe.symm,
        dget_dset_ne _ _ _ _ hTS.symm, dget_dset_ne _ _ _ _ hTP.symm,
        dget_dset_ne _ _ _ _ hSP.symm, dget_dset_ne _ _ _ _ hSeP.symm,
        dget_dset_ne _ _ _ _ hSSe, dget_dset_ne _ _ _ _ hTSe,
        dget_dset_ne _ _ _ _ hTS, dget_dset_ne _ _ _ _ hTP,
        dget_dset_ne _ _ _ _ hSP, dget_dset_ne _ _ _ _ hSeP]
  · intro hs
    exact ⟨fun h1 => h1, fun h1 => h1, fun h1 => h1, fun h1 => h1⟩

/-- Witness for C8 (amended): a registered trace `"t0"` with story `"s"`
and session `"sess"`, injected and extracted with parent span `"sp"`. -/
theorem C8_header_roundtrip_witness :
    dget ((createStoryGenerationRoot (initOrchestrator none) "s" (some "sess")
        (some "t0")).2).active_traces "t0"
      = some { trace_id := "t0", story_id := "s", session_id := "sess"
               child_span_ids := [] } ∧
      extractCorrelationHeader
          (injectCorrelationHeader
            (createStoryGenerationRoot (initOrchestrator none) "s" (some "sess")
              (some "t0")).2 [] (some "t0") (some "sp"))
        = (some "t0",
            some (RootTrace.story_id
              { trace_id := "t0", story_id := "s", session_id := "sess"
                child_span_ids := [] }),
            some (RootTrace.session_id
              { trace_id := "t0", story_id := "s", session_id := "sess"
                child_span_ids := [] }),
            some "sp") :=
  ⟨by decide,
    (C8_header_roundtrip
      (createStoryGenerationRoot (initOrchestrator none) "s" (some "sess")
        (some "t0")).2 "t0"
      { trace_id := "t0", story_id := "s", session_id := "sess"
        child_span_ids := [] }
      (some "sp") (by decide) (by decide)
      (Or.inr ⟨"sp", rfl, by decide⟩)).1⟩

/-- C10: `finalize_story_trace` raises `ValueError` exactly when the trace
identifier is not among the active traces, and leaves the whole
orchestrator state unchanged in that case (the raise precedes any
mutation); on success it returns the completed trace, removes the trace
from `active_traces`, removes every child span record of that trace from
the span map, and a second call with the same identifier therefore raises
`ValueError` (again without touching the state). -/
theorem C10_finalize_story_trace_spec (o : Orchestrator) (t : String) :
    (dget o.active_traces t = none →
      finalizeStoryTrace o t = (Except.error ("Unknown trace ID: " ++ t), o)) ∧
      (∀ root, dget o.active_traces t = some root →
        (∃ c, (finalizeStoryTrace o t).1 = Except.ok c) ∧
          dget (finalizeStoryTrace o t).2.active_traces t = none ∧
          (∀ sid ∈ root.child_span_ids,
            dget (finalizeStoryTrace o t).2.spans sid = none) ∧
          finalizeStoryTrace (finalizeStoryTrace o t).2 t
            = (Except.error ("Unknown trace ID: " ++ t),
                (finalizeStoryTrace o t).2)) := by
  constructor
  · intro hnone
    simp [finalizeStoryTrace, hnone]
  · intro root hroot
    have hpair : finalizeStoryTrace o t =
        (Except.ok
          { trace_id := t, story_id := root.story_id
            session_id := root.session_id
            spans := root.child_span_ids.filterMap (fun sid => dget o.spans sid)
            beat_count :=
              ((root.child_span_ids.filterMap
                  (fun sid => dget o.spans sid)).filter
                (fun s => s.eventType = NEventType.BEAT_CREATED)).length },
          { o with
            active_traces := ddel o.active_traces t
            spans := root.child_span_ids.foldl (fun m sid => ddel m sid) o.spans
            log := o.log ++
              [OrchClientEvent.updateTrace t, OrchClientEvent.flush] }) := by
      simp [finalizeStoryTrace, hroot]
    refine ⟨⟨_, by rw [hpair]⟩, ?_, ?_, ?_⟩
    · rw [hpair]
      simp
    · intro sid hsid
      rw [hpair]
      simp [dget_foldl_ddel, hsid]
    · rw [hpair]
      simp [finalizeStoryTrace]

/-- Witness for C10: an orchestrator with trace `"t0"` and one analysis
span; finalization succeeds, empties the records, and a repeat raises. -/
theorem C10_finalize_story_trace_witness :
    dget ((createAnalysisSpan
        (createStoryGenerationRoot (initOrchestrator none) "s" (some "sess")
          (some "t0")).2 "t0").2).active_traces "t0"
      = some { trace_id := "t0", story_id := "s", session_id := "sess"
               child_span_ids := [uuidGen 0] } ∧
      ((∃ c, (finalizeStoryTrace ((createAnalysisSpan
            (createStoryGenerationRoot (initOrchestrator none) "s" (some "sess")
              (some "t0")).2 "t0").2) "t0").1 = Except.ok c) ∧
        dget (finalizeStoryTrace ((createAnalysisSpan
            (createStoryGenerationRoot (initOrchestrator none) "s" (some "sess")
              (some "t0")).2 "t0").2) "t0").2.active_traces "t0" = none ∧
        (∀ sid ∈ RootTrace.child_span_ids
            { trace_id := "t0", story_id := "s", session_id := "sess"
              child_span_ids := [uuidGen 0] },
          dget (finalizeStoryTrace ((createAnalysisSpan
              (createStoryGenerationRoot (initOrchestrator none) "s"
                (some "sess") (some "t0")).2 "t0").2) "t0").2.spans sid
            = none) ∧
        finalizeStoryTrace
            (finalizeStoryTrace ((createAnalysisSpan
              (createStoryGenerationRoot (initOrchestrator none) "s"
                (some "sess") (some "t0")).2 "t0").2) "t0").2 "t0"
          = (Except.error ("Unknown trace ID: " ++ "t0"),
              (finalizeStoryTrace ((createAnalysisSpan
                (createStoryGenerationRoot (initOrchestrator none) "s"
                  (some "sess") (some "t0")).2 "t0").2) "t0").2)) :=
  ⟨by decide,
    (C10_finalize_story_trace_spec ((createAnalysisSpan
        (createStoryGenerationRoot (initOrchestrator none) "s" (some "sess")
          (some "t0")).2 "t0").2) "t0").2
      { trace_id := "t0", story_id := "s", session_id := "sess"
        child_span_ids := [uuidGen 0] }
      (by decide)⟩

end AvaLangchain
